import Mathlib

/-!
Verification development for the Marstek Home Assistant integration
(`custom_components/marstek/coordinator.py`): a shallow embedding of the
tiered polling coordinator (`MarstekDataUpdateCoordinator`) and its
identity-rebinding handlers, with theorems about their behavior.

The Device Client (`MarstekUDPClient.get_device_status`) is an external
collaborator: it is modelled as an oracle function supplied to the poll
operation.  The Home Assistant base class `DataUpdateCoordinator` stores
the value returned by `_async_update_data` as `self.data` on success and
retains the previous `self.data` when `UpdateFailed` is raised; this
storage contract is folded into the `asyncUpdateData` state transition.
-/

set_option autoImplicit false

namespace Marstek

/-- A value stored in a device-status dict (`dict[str, Any]`): the fields
the coordinator inspects are strings (`device_mode`) and numbers. -/
inductive Val where
  | str : String → Val
  | num : Int → Val
  deriving DecidableEq, Repr

/-- A `DeviceStatusRecord`: the `dict[str, Any]` returned by
`get_device_status`, embedded as an association list. -/
abbrev Record := List (String × Val)

/-- Python `d.get(k, default)` on a status record. -/
def recordGetD (r : Record) (k : String) (d : Val) : Val :=
  match r.find? (fun p => p.1 = k) with
  | some p => p.2
  | none => d

/-- Constant `MEDIUM_POLL_INTERVAL = 60` (coordinator.py line 27). -/
def MEDIUM_POLL_INTERVAL : ℚ := 60

/-- Constant `SLOW_POLL_INTERVAL = 300` (coordinator.py line 28). -/
def SLOW_POLL_INTERVAL : ℚ := 300

/-- The transport-level exceptions caught at the poll boundary
(`except (TimeoutError, OSError, ValueError)`, coordinator.py line 159). -/
inductive TransportError where
  | timeout
  | connectionError
  | malformedResponse
  deriving DecidableEq, Repr

/-- Outcome of one call to the Device Client's `get_device_status`:
either a status record or a raised transport exception. -/
inductive FetchResult where
  | ok : Record → FetchResult
  | error : TransportError → FetchResult
  deriving DecidableEq, Repr

/-- The tier-inclusion flags and previous record passed to
`get_device_status` (coordinator.py lines 113-123).  Address, port,
timeout and inter-request delay are fixed plumbing and omitted. -/
structure FetchArgs where
  include_pv : Bool
  include_wifi : Bool
  include_em : Bool
  include_bat : Bool
  previous_status : Option Record
  deriving DecidableEq, Repr

/-- The coordinator's mutable polling state: `self.data` (None before the
first successful refresh), `self._last_pv_fetch`, `self._last_slow_fetch`. -/
structure PollState where
  data : Option Record
  lastPvFetch : ℚ
  lastSlowFetch : ℚ
  deriving DecidableEq, Repr

/-- What the scheduler observes from one poll: a returned record or the
typed `UpdateFailed` condition. -/
inductive PollOutcome where
  | success : Record → PollOutcome
  | pollFailed : PollOutcome
  deriving DecidableEq, Repr

/-- The `FetchArgs` computed at lines 94-123 of coordinator.py:
`include_pv = (current_time - self._last_pv_fetch) >= MEDIUM_POLL_INTERVAL`,
`include_slow = (current_time - self._last_slow_fetch) >= SLOW_POLL_INTERVAL`,
passed as `include_pv`, `include_wifi = include_slow`, `include_em = True`,
`include_bat = include_slow`, `previous_status = self.data`. -/
def tierArgs (now : ℚ) (st : PollState) : FetchArgs :=
  let include_pv := decide (MEDIUM_POLL_INTERVAL ≤ now - st.lastPvFetch)
  let include_slow := decide (SLOW_POLL_INTERVAL ≤ now - st.lastSlowFetch)
  { include_pv := include_pv
    include_wifi := include_slow
    include_em := true
    include_bat := include_slow
    previous_status := st.data }

/-- One poll cycle: `MarstekDataUpdateCoordinator._async_update_data`
(coordinator.py lines 78-168) together with the base-class storage of the
returned record.  `client` is the Device Client oracle, `paused` is
`self.udp_client.is_polling_paused(current_ip)`, `now` is
`time.monotonic()`.  Returns the outcome, the post-call coordinator state,
and the fetch call that was issued (`none` when polling is paused).

Mirrored control flow:
* paused: `return self.data or {}` — no fetch, no timestamp updates;
* fetch raises a transport error: the `except` clause raises
  `UpdateFailed`, so timestamps and stored data are untouched;
* fetch returns: `_last_pv_fetch` / `_last_slow_fetch` are updated for the
  requested tiers (lines 126-129) *before* the validity check; then if
  `device_status.get("device_mode", "Unknown") == "Unknown"` a
  `TimeoutError` is raised and caught as `UpdateFailed` (stored data kept);
  otherwise the record is returned and stored. -/
def asyncUpdateData (client : FetchArgs → FetchResult) (paused : Bool)
    (now : ℚ) (st : PollState) : PollOutcome × PollState × Option FetchArgs :=
  if paused then
    (.success (st.data.getD []), { st with data := some (st.data.getD []) }, none)
  else
    let args := tierArgs now st
    match client args with
    | .error _ => (.pollFailed, st, some args)
    | .ok device_status =>
      let st1 : PollState :=
        { st with
          lastPvFetch := if args.include_pv then now else st.lastPvFetch
          lastSlowFetch := if args.include_bat then now else st.lastSlowFetch }
      if recordGetD device_status "device_mode" (.str "Unknown") = .str "Unknown" then
        (.pollFailed, st1, some args)
      else
        (.success device_status, { st1 with data := some device_status }, some args)

/-- A display-name string, embedded as its list of characters so that
Python's `in` and `str.replace` can be modelled by structural recursion. -/
abbrev Name := List Char

/-- Python truthiness of an optional string: `None` and `""` are falsy. -/
def truthy : Option Name → Bool
  | some s => !s.isEmpty
  | none => false

/-- Python `a or b` on optional strings: `a` when truthy, else `b`. -/
def pyOr (a b : Option Name) : Option Name :=
  if truthy a then a else b

/-- The string `needle` occurs at the start of `hay`. -/
def leadsWith : Name → Name → Bool
  | [], _ => true
  | _ :: _, [] => false
  | a :: as, b :: bs => a == b && leadsWith as bs

/-- Python `needle in hay`: `needle` occurs as a contiguous substring. -/
def strContains (needle : Name) : Name → Bool
  | [] => leadsWith needle []
  | c :: rest => leadsWith needle (c :: rest) || strContains needle rest

/-- Left-to-right, non-overlapping replacement of the non-empty pattern
`o :: old` by `new` throughout a string, as Python `str.replace` does.
The `fuel` argument only bounds the recursion depth: each step consumes
at least one character, so `fuel = s.length` always suffices, and when
fuel runs out the remainder is returned unchanged. -/
def strReplaceFuel (o : Char) (old new : Name) : Nat → Name → Name
  | _, [] => []
  | 0, s => s
  | fuel + 1, c :: rest =>
    if leadsWith (o :: old) (c :: rest) then
      new ++ strReplaceFuel o old new fuel (rest.drop old.length)
    else
      c :: strReplaceFuel o old new fuel rest

/-- Python `s.replace(old, new)` (replace all occurrences).  With an
empty pattern Python inserts `new` before every character and once at
the end. -/
def strReplace (s old new : Name) : Name :=
  match old with
  | [] => new ++ (s.map (fun c => c :: new)).flatten
  | o :: old' => strReplaceFuel o old' new s.length s

/-- The data of the integration's config entry: `CONF_HOST` plus the MAC
identifiers read by `_update_entity_names` (lines 196-200). -/
structure ConfigEntryData where
  host : Option Name
  bleMac : Option Name
  mac : Option Name
  wifiMac : Option Name
  deriving DecidableEq, Repr

/-- One entity-registry entry belonging to the config entry: its entity
id and its (optional) display name. -/
structure EntityEntry where
  entityId : String
  name : Option Name
  deriving DecidableEq, Repr

/-- The external registries consulted by `_update_entity_names`: the
device-registry lookup by stable identifier (`none` when no device
matches; `some name?` a device with that name field) and the
entity-registry entries listed for the config entry. -/
structure NamingRegistry where
  lookupDevice : Name → Option (Option Name)
  entities : List EntityEntry

/-- A persisted rename request issued to an external registry
(`async_update_device` / `async_update_entity`). -/
inductive RegistryCall where
  | updateDevice : Name → RegistryCall
  | updateEntity : String → Name → RegistryCall
  deriving DecidableEq, Repr

/-- The coordinator fields involved in identity rebinding:
`self.config_entry` and `self._initial_device_ip`. -/
structure RebindCoord where
  configEntry : Option ConfigEntryData
  initialDeviceIp : Name

/-- The `device_identifier` expression (coordinator.py lines 196-200):
`data.get("ble_mac") or data.get("mac") or data.get("wifi_mac")`. -/
def deviceIdentifier (ce : ConfigEntryData) : Option Name :=
  pyOr (pyOr ce.bleMac ce.mac) ce.wifiMac

/-- The device-registry rename issued at lines 201-212: only when an
identifier is truthy, the lookup finds a device, its name is truthy and
contains `old_ip`; the new name is `device.name.replace(old_ip, new_ip)`. -/
def deviceNameCalls (reg : NamingRegistry) (ce : ConfigEntryData)
    (newIp oldIp : Name) : List RegistryCall :=
  let ident := deviceIdentifier ce
  if truthy ident then
    match reg.lookupDevice (ident.getD []) with
    | some (some n) =>
      if !n.isEmpty && strContains oldIp n then
        [.updateDevice (strReplace n oldIp newIp)]
      else []
    | some none => []
    | none => []
  else []

/-- The entity-registry renames issued by the loop at lines 220-233: one
`async_update_entity` per entity whose name is truthy and contains
`old_ip`; `updated_count` is incremented exactly once per such call. -/
def entityCalls (newIp oldIp : Name) : List EntityEntry → List RegistryCall
  | [] => []
  | e :: rest =>
    match e.name with
    | some n =>
      if !n.isEmpty && strContains oldIp n then
        .updateEntity e.entityId (strReplace n oldIp newIp) :: entityCalls newIp oldIp rest
      else entityCalls newIp oldIp rest
    | none => entityCalls newIp oldIp rest

/-- Embedding of `MarstekDataUpdateCoordinator._update_entity_names(new_ip, old_ip)`
(coordinator.py lines 190-241): returns the registry rename calls issued
and the `updated_count` that is logged (entity renames only). -/
def updateEntityNames (self : RebindCoord) (reg : NamingRegistry)
    (newIp oldIp : Name) : List RegistryCall × Nat :=
  match self.configEntry with
  | none => ([], 0)
  | some ce =>
    let eCalls := entityCalls newIp oldIp reg.entities
    (deviceNameCalls reg ce newIp oldIp ++ eCalls, eCalls.length)

/-- Embedding of `MarstekDataUpdateCoordinator._async_config_entry_updated`
(coordinator.py lines 170-188): on a config-entry update, read
`new_ip = entry.data.get(CONF_HOST, old_ip)`; when it differs from
`self._initial_device_ip`, propagate the renames and then set
`self._initial_device_ip = new_ip`; otherwise do nothing.  Returns the
new coordinator state, the registry calls issued, and the logged count. -/
def asyncConfigEntryUpdated (self : RebindCoord) (entry : ConfigEntryData)
    (reg : NamingRegistry) : RebindCoord × List RegistryCall × Nat :=
  match self.configEntry with
  | none => (self, [], 0)
  | some _ =>
    let oldIp := self.initialDeviceIp
    let newIp := entry.host.getD oldIp
    if newIp ≠ oldIp then
      let result := updateEntityNames self reg newIp oldIp
      ({ self with initialDeviceIp := newIp }, result.1, result.2)
    else
      (self, [], 0)

/-- The `device_ip` property (coordinator.py lines 71-76). -/
def deviceIp (self : RebindCoord) : Name :=
  match self.configEntry with
  | some ce => ce.host.getD self.initialDeviceIp
  | none => self.initialDeviceIp

/-- Spec-side predicate: an entity-registry entry is renamed by the loop
at lines 220-233 exactly when its name is truthy and contains `old_ip`. -/
def entityMatched (oldIp : Name) (e : EntityEntry) : Bool :=
  match e.name with
  | some n => !n.isEmpty && strContains oldIp n
  | none => false

/-- A concrete config entry: host `"b"`, identifier `"m"`. -/
def sampleCe : ConfigEntryData :=
  { host := some ['b'], bleMac := some ['m'], mac := none, wifiMac := none }

/-- A concrete coordinator bound to address `"a"` with `sampleCe`. -/
def sampleSelf : RebindCoord :=
  { configEntry := some sampleCe, initialDeviceIp := ['a'] }

/-- A registry whose device is named `"ax"` and which lists no entities. -/
def deviceOnlyReg : NamingRegistry :=
  { lookupDevice := fun _ => some (some ['a', 'x']), entities := [] }

/-- A registry with a device named `"ax"` and three entities: one whose
name contains `"a"`, one whose name does not, one with no name. -/
def mixedReg : NamingRegistry :=
  { lookupDevice := fun _ => some (some ['a', 'x'])
    entities :=
      [ { entityId := "sensor.one", name := some ['a', '1'] }
      , { entityId := "sensor.two", name := some ['z'] }
      , { entityId := "sensor.three", name := none } ] }

/-- A registry with no matching device and no entities. -/
def emptyReg : NamingRegistry :=
  { lookupDevice := fun _ => none, entities := [] }

end Marstek

namespace Marstek

/-- C1: on every non-paused poll, a fetch is issued whose fast tier
(`include_em`) is always requested, whose PV flag is set iff at least 60
monotonic seconds elapsed since the last recorded PV fetch, and whose
WiFi and battery-detail flags are both set iff at least 300 seconds
elapsed since the last recorded slow fetch. -/
theorem poll_tier_flags (client : FetchArgs → FetchResult) (now : ℚ) (st : PollState) :
    ∃ args : FetchArgs,
      (asyncUpdateData client false now st).2.2 = some args ∧
      args.include_em = true ∧
      (args.include_pv = true ↔ (60 : ℚ) ≤ now - st.lastPvFetch) ∧
      (args.include_wifi = true ↔ (300 : ℚ) ≤ now - st.lastSlowFetch) ∧
      args.include_bat = args.include_wifi := by
  refine ⟨tierArgs now st, ?_, rfl, ?_, ?_, rfl⟩
  · unfold asyncUpdateData
    cases h : client (tierArgs now st) with
    | ok r =>
      simp only [Bool.false_eq_true, if_false, h]
      split <;> rfl
    | error e =>
      simp only [Bool.false_eq_true, if_false, h]
  · simp [tierArgs, MEDIUM_POLL_INTERVAL]
  · simp [tierArgs, SLOW_POLL_INTERVAL]

/-- C4: if the Device Client reports polling paused, `poll(now)` returns
the previously stored record unchanged as a no-op success, issues no
fetch, and leaves both tier timestamps (and the whole state) unchanged. -/
theorem paused_noop (client : FetchArgs → FetchResult) (now : ℚ) (st : PollState)
    (d : Record) (hd : st.data = some d) :
    asyncUpdateData client true now st = (.success d, st, none) := by
  cases st with
  | mk data lp ls =>
    cases hd
    simp [asyncUpdateData]

/-- Witness for `paused_noop` at a concrete state holding a record. -/
theorem paused_noop_witness :
    asyncUpdateData (fun _ => .error .timeout) true 5
        ⟨some [("device_mode", Val.str "Manual")], 1, 2⟩ =
      (.success [("device_mode", Val.str "Manual")],
        ⟨some [("device_mode", Val.str "Manual")], 1, 2⟩, none) :=
  paused_noop (fun _ => .error .timeout) 5
    ⟨some [("device_mode", Val.str "Manual")], 1, 2⟩
    [("device_mode", Val.str "Manual")] rfl

/-- C10: if polling is paused and no successful poll has ever stored a
record (`self.data` is `None`), the poll returns the empty record as a
success (`self.data or` the empty dict), stores it, issues no fetch, and leaves
the tier timestamps unchanged. -/
theorem paused_empty_record (client : FetchArgs → FetchResult) (now lp ls : ℚ) :
    asyncUpdateData client true now ⟨none, lp, ls⟩ =
      (.success [], ⟨some [], lp, ls⟩, none) := by
  simp [asyncUpdateData]

/-- C3: a fetch that returns without a transport exception but whose
record carries the `device_mode == "Unknown"` sentinel is classified as a
failed poll (`UpdateFailed`), never returned as a successful record. -/
theorem unknown_mode_poll_failed (client : FetchArgs → FetchResult)
    (now : ℚ) (st : PollState) (r : Record)
    (hc : client (tierArgs now st) = .ok r)
    (hm : recordGetD r "device_mode" (.str "Unknown") = .str "Unknown") :
    (asyncUpdateData client false now st).1 = .pollFailed ∧
    ∀ r' : Record, (asyncUpdateData client false now st).1 ≠ .success r' := by
  constructor
  · simp [asyncUpdateData, hc, hm]
  · intro r'
    simp [asyncUpdateData, hc, hm]

/-- A Device Client that returns the `"Unknown"` placeholder record
without raising a transport exception. -/
def unknownClient : FetchArgs → FetchResult :=
  fun _ => .ok [("device_mode", Val.str "Unknown")]

/-- Witness for `unknown_mode_poll_failed` at a concrete client and state. -/
theorem unknown_mode_poll_failed_witness :
    (asyncUpdateData unknownClient false 0 ⟨none, 0, 0⟩).1 = .pollFailed ∧
    ∀ r' : Record, (asyncUpdateData unknownClient false 0 ⟨none, 0, 0⟩).1 ≠ .success r' :=
  unknown_mode_poll_failed unknownClient 0 ⟨none, 0, 0⟩
    [("device_mode", Val.str "Unknown")] rfl rfl

/-- C5: a transport failure of the Device Client fetch (timeout,
connection error, malformed response) is caught inside the poll and
surfaced as the typed `pollFailed` outcome; moreover every poll, on any
input, yields either a record or that typed failure — never an uncaught
exception. -/
theorem transport_error_contained (client : FetchArgs → FetchResult)
    (now : ℚ) (st : PollState) (e : TransportError)
    (hc : client (tierArgs now st) = .error e) :
    (asyncUpdateData client false now st).1 = .pollFailed ∧
    ∀ (c : FetchArgs → FetchResult) (p : Bool) (t : ℚ) (s : PollState),
      (asyncUpdateData c p t s).1 = .pollFailed ∨
      ∃ r : Record, (asyncUpdateData c p t s).1 = .success r := by
  constructor
  · simp [asyncUpdateData, hc]
  · intro c p t s
    cases h : (asyncUpdateData c p t s).1 with
    | success r => exact Or.inr ⟨r, rfl⟩
    | pollFailed => exact Or.inl rfl

/-- Witness for `transport_error_contained` with a client that times out. -/
theorem transport_error_contained_witness :
    (asyncUpdateData (fun _ => .error .timeout) false 0 ⟨none, 0, 0⟩).1 = .pollFailed ∧
    ∀ (c : FetchArgs → FetchResult) (p : Bool) (t : ℚ) (s : PollState),
      (asyncUpdateData c p t s).1 = .pollFailed ∨
      ∃ r : Record, (asyncUpdateData c p t s).1 = .success r :=
  transport_error_contained (fun _ => .error .timeout) 0 ⟨none, 0, 0⟩ .timeout rfl

/-- C2 fails as stated: a poll that fails through the Unknown-mode
sentinel (no transport exception) has already advanced the due tier
timestamps at lines 126-129, before the validity check at lines 131-146.
At `now = 1000` with both timestamps `0`, the poll is classified
`pollFailed` yet both `_last_pv_fetch` and `_last_slow_fetch` now read
`1000`, not their prior value `0`. -/
theorem pollFailed_timestamps_cex :
    (asyncUpdateData unknownClient false 1000 ⟨none, 0, 0⟩).1 = .pollFailed ∧
    (asyncUpdateData unknownClient false 1000 ⟨none, 0, 0⟩).2.1.lastPvFetch = 1000 ∧
    (asyncUpdateData unknownClient false 1000 ⟨none, 0, 0⟩).2.1.lastSlowFetch = 1000 ∧
    ¬ ((asyncUpdateData unknownClient false 1000 ⟨none, 0, 0⟩).2.1.lastPvFetch = 0 ∧
       (asyncUpdateData unknownClient false 1000 ⟨none, 0, 0⟩).2.1.lastSlowFetch = 0) := by
  norm_num [asyncUpdateData, unknownClient, tierArgs, recordGetD,
    MEDIUM_POLL_INTERVAL, SLOW_POLL_INTERVAL]

/-- C2 (amended): on every failed poll the stored record is unchanged;
the tier timestamps are unchanged when the failure is a transport
exception, but when the failure is the Unknown-mode sentinel the
timestamps of the tiers that were requested in that cycle are set to
`now` (the others are unchanged). -/
theorem pollFailed_frame (client : FetchArgs → FetchResult) (now : ℚ) (st : PollState)
    (h : (asyncUpdateData client false now st).1 = .pollFailed) :
    (asyncUpdateData client false now st).2.1.data = st.data ∧
    ((∃ e, client (tierArgs now st) = .error e) →
      (asyncUpdateData client false now st).2.1 = st) ∧
    (∀ r : Record, client (tierArgs now st) = .ok r →
      (asyncUpdateData client false now st).2.1.lastPvFetch =
        (if (tierArgs now st).include_pv then now else st.lastPvFetch) ∧
      (asyncUpdateData client false now st).2.1.lastSlowFetch =
        (if (tierArgs now st).include_bat then now else st.lastSlowFetch)) := by
  cases hres : client (tierArgs now st) with
  | error e =>
    refine ⟨?_, fun _ => ?_, fun r hr => ?_⟩
    · simp [asyncUpdateData, hres]
    · simp [asyncUpdateData, hres]
    · cases hr
  | ok r0 =>
    by_cases hm : recordGetD r0 "device_mode" (.str "Unknown") = .str "Unknown"
    · refine ⟨?_, fun he => ?_, fun r hr => ?_⟩
      · simp [asyncUpdateData, hres, hm]
      · obtain ⟨e, he⟩ := he
        cases he
      · simp [asyncUpdateData, hres, hm]
    · exfalso
      simp [asyncUpdateData, hres, hm] at h

/-- Witness for `pollFailed_frame` at a concrete Unknown-mode failure. -/
theorem pollFailed_frame_witness :
    (asyncUpdateData unknownClient false 1000 ⟨none, 0, 0⟩).1 = .pollFailed ∧
    (asyncUpdateData unknownClient false 1000 ⟨none, 0, 0⟩).2.1.data = none := by
  have h : (asyncUpdateData unknownClient false 1000 ⟨none, 0, 0⟩).1 = .pollFailed := by
    norm_num [asyncUpdateData, unknownClient, tierArgs, recordGetD,
      MEDIUM_POLL_INTERVAL, SLOW_POLL_INTERVAL]
  exact ⟨h, (pollFailed_frame unknownClient 1000 ⟨none, 0, 0⟩ h).1⟩

theorem strReplaceFuel_of_not_contains (o : Char) (old new : Name) (fuel : Nat)
    (s : Name) (h : strContains (o :: old) s = false) :
    strReplaceFuel o old new fuel s = s := by
  induction fuel generalizing s with
  | zero => cases s <;> rfl
  | succ fuel ih =>
    cases s with
    | nil => rfl
    | cons c rest =>
      rw [strContains, Bool.or_eq_false_iff] at h
      simp [strReplaceFuel, h.1, ih rest h.2]

/-- A string not containing the pattern is unchanged by `str.replace`. -/
theorem strReplace_of_not_contains (s old new : Name)
    (h : strContains old s = false) : strReplace s old new = s := by
  cases old with
  | nil =>
    exfalso
    cases s <;> simp [strContains, leadsWith] at h
  | cons o old' => exact strReplaceFuel_of_not_contains o old' new s.length s h

theorem entityCalls_eq_filter_map (newIp oldIp : Name) (es : List EntityEntry) :
    entityCalls newIp oldIp es =
      (es.filter (entityMatched oldIp)).map
        (fun e => RegistryCall.updateEntity e.entityId
          (strReplace (e.name.getD []) oldIp newIp)) := by
  induction es with
  | nil => rfl
  | cons e rest ih =>
    cases hn : e.name with
    | none =>
      have hm : entityMatched oldIp e = false := by simp [entityMatched, hn]
      simp [entityCalls, hn, List.filter_cons, hm, ih]
    | some n =>
      by_cases hb : (!n.isEmpty && strContains oldIp n) = true
      · have hm : entityMatched oldIp e = true := by simp [entityMatched, hn, hb]
        simp [entityCalls, hn, hb, List.filter_cons, hm, ih]
      · have hm : entityMatched oldIp e = false := by
          simp only [entityMatched, hn]
          exact Bool.eq_false_iff.mpr hb
        simp [entityCalls, hn, hb, List.filter_cons, hm, ih]

theorem updateDevice_not_mem_entityCalls (newIp oldIp : Name)
    (es : List EntityEntry) (m : Name) :
    RegistryCall.updateDevice m ∉ entityCalls newIp oldIp es := by
  induction es with
  | nil => simp [entityCalls]
  | cons e rest ih =>
    cases hn : e.name with
    | none => simpa [entityCalls, hn] using ih
    | some n =>
      by_cases hb : (!n.isEmpty && strContains oldIp n) = true
      · simp [entityCalls, hn, hb, ih]
      · simpa [entityCalls, hn, hb] using ih

/-- C6 fails as stated: with a device named `"ax"`, `old = "a"`,
`new = "b"` and no entities, the rename pass changes one naming record
(the device name, `"ax"` to `"bx"`) but the emitted count is `0`: the
`updated_count` of coordinator.py line 220 counts entity renames only,
so it is not "the exact count of records changed". -/
theorem rebind_count_cex :
    (updateEntityNames sampleSelf deviceOnlyReg ['b'] ['a']).1 =
      [RegistryCall.updateDevice ['b', 'x']] ∧
    (['b', 'x'] : Name) ≠ (['a', 'x'] : Name) ∧
    (updateEntityNames sampleSelf deviceOnlyReg ['b'] ['a']).2 = 0 := by
  decide

/-- C6 (amended): `rebind(old, new)` replaces `old` with `new` (Python
replace-all) in the device display name and in exactly the entity display
names that contain `old` as a literal substring, leaves every record not
containing `old` untouched, and emits as its count the exact number of
entity records changed — the device-name change is not included in the
count. -/
theorem rebind_renames (self : RebindCoord) (reg : NamingRegistry)
    (newIp oldIp : Name) (ce : ConfigEntryData)
    (hce : self.configEntry = some ce) :
    (updateEntityNames self reg newIp oldIp).1 =
      deviceNameCalls reg ce newIp oldIp ++
        (reg.entities.filter (entityMatched oldIp)).map
          (fun e => RegistryCall.updateEntity e.entityId
            (strReplace (e.name.getD []) oldIp newIp)) ∧
    (updateEntityNames self reg newIp oldIp).2 =
      (reg.entities.filter (entityMatched oldIp)).length ∧
    ∀ n : Name, strContains oldIp n = false → strReplace n oldIp newIp = n := by
  refine ⟨?_, ?_, fun n hn => strReplace_of_not_contains n oldIp newIp hn⟩
  · simp [updateEntityNames, hce, entityCalls_eq_filter_map]
  · simp [updateEntityNames, hce, entityCalls_eq_filter_map]

/-- Witness for `rebind_renames` on a registry with one matching entity,
one non-matching entity and one unnamed entity. -/
theorem rebind_renames_witness :
    (updateEntityNames sampleSelf mixedReg ['b'] ['a']).1 =
      deviceNameCalls mixedReg sampleCe ['b'] ['a'] ++
        (mixedReg.entities.filter (entityMatched ['a'])).map
          (fun e => RegistryCall.updateEntity e.entityId
            (strReplace (e.name.getD []) ['a'] ['b'])) ∧
    (updateEntityNames sampleSelf mixedReg ['b'] ['a']).2 =
      (mixedReg.entities.filter (entityMatched ['a'])).length :=
  ⟨(rebind_renames sampleSelf mixedReg ['b'] ['a'] sampleCe rfl).1,
   (rebind_renames sampleSelf mixedReg ['b'] ['a'] sampleCe rfl).2.1⟩

/-- C7: an address-change notification whose new address equals the
coordinator's currently bound address is a no-op: no registry calls are
made, the count is zero, and the coordinator state is unchanged. -/
theorem rebind_same_addr_noop (self : RebindCoord) (entry : ConfigEntryData)
    (reg : NamingRegistry)
    (h : entry.host.getD self.initialDeviceIp = self.initialDeviceIp) :
    asyncConfigEntryUpdated self entry reg = (self, [], 0) := by
  cases hce : self.configEntry with
  | none => simp [asyncConfigEntryUpdated, hce]
  | some ce => simp [asyncConfigEntryUpdated, hce, h]

/-- Witness for `rebind_same_addr_noop`: the entry's host equals the
bound address `"a"`. -/
theorem rebind_same_addr_noop_witness :
    asyncConfigEntryUpdated sampleSelf
        { host := some ['a'], bleMac := none, mac := none, wifiMac := none }
        emptyReg =
      (sampleSelf, [], 0) :=
  rebind_same_addr_noop sampleSelf
    { host := some ['a'], bleMac := none, mac := none, wifiMac := none }
    emptyReg rfl

/-- C8: during a rebind to a different address, if no stable identifier
is available or the device-registry lookup finds no device, the
device-name update is skipped (no `updateDevice` call), the entity-name
updates still proceed, and the address is still rebound. -/
theorem rebind_missing_device (self : RebindCoord) (entry : ConfigEntryData)
    (reg : NamingRegistry) (ce : ConfigEntryData) (newIp : Name)
    (hce : self.configEntry = some ce)
    (hhost : entry.host = some newIp)
    (hne : newIp ≠ self.initialDeviceIp)
    (hmiss : truthy (deviceIdentifier ce) = false ∨
      reg.lookupDevice ((deviceIdentifier ce).getD []) = none) :
    (asyncConfigEntryUpdated self entry reg).1.initialDeviceIp = newIp ∧
    (asyncConfigEntryUpdated self entry reg).2.1 =
      entityCalls newIp self.initialDeviceIp reg.entities ∧
    ∀ m : Name,
      RegistryCall.updateDevice m ∉ (asyncConfigEntryUpdated self entry reg).2.1 := by
  have hdev : deviceNameCalls reg ce newIp self.initialDeviceIp = [] := by
    cases hmiss with
    | inl hfalse => simp [deviceNameCalls, hfalse]
    | inr hnone => simp [deviceNameCalls, hnone]
  refine ⟨?_, ?_, fun m => ?_⟩
  · simp [asyncConfigEntryUpdated, hce, hhost, hne]
  · simp [asyncConfigEntryUpdated, hce, hhost, hne, updateEntityNames, hdev]
  · simp only [asyncConfigEntryUpdated, hce, hhost, Option.getD_some]
    simp [hne, updateEntityNames, hce, hdev, updateDevice_not_mem_entityCalls]

/-- Witness for `rebind_missing_device`: rebinding `"a"` to `"c"` with an
empty registry. -/
theorem rebind_missing_device_witness :
    (asyncConfigEntryUpdated sampleSelf
        { host := some ['c'], bleMac := none, mac := none, wifiMac := none }
        emptyReg).1.initialDeviceIp = ['c'] ∧
    (asyncConfigEntryUpdated sampleSelf
        { host := some ['c'], bleMac := none, mac := none, wifiMac := none }
        emptyReg).2.1 =
      entityCalls ['c'] sampleSelf.initialDeviceIp emptyReg.entities :=
  ⟨(rebind_missing_device sampleSelf
      { host := some ['c'], bleMac := none, mac := none, wifiMac := none }
      emptyReg sampleCe ['c'] rfl rfl (by decide) (Or.inr rfl)).1,
   (rebind_missing_device sampleSelf
      { host := some ['c'], bleMac := none, mac := none, wifiMac := none }
      emptyReg sampleCe ['c'] rfl rfl (by decide) (Or.inr rfl)).2.1⟩

/-- C9: invariant of the rebind handler.  After handling an update whose
entry carries host `h`, the stored comparison address equals `h` (and the
config entry reference is untouched); when `h` differs from the bound
address the renames issued substitute the currently bound address; a
repeated notification with the unchanged address performs no renames; and
a later change handled from the updated state substitutes the most
recently bound address `h`, not the original one. -/
theorem rebind_address_invariant (self : RebindCoord) (entry : ConfigEntryData)
    (reg : NamingRegistry) (ce : ConfigEntryData) (h : Name)
    (hce : self.configEntry = some ce)
    (hhost : entry.host = some h) :
    (asyncConfigEntryUpdated self entry reg).1.initialDeviceIp = h ∧
    (asyncConfigEntryUpdated self entry reg).1.configEntry = self.configEntry ∧
    (h ≠ self.initialDeviceIp →
      (asyncConfigEntryUpdated self entry reg).2.1 =
        (updateEntityNames self reg h self.initialDeviceIp).1) ∧
    (h = self.initialDeviceIp →
      asyncConfigEntryUpdated self entry reg = (self, [], 0)) ∧
    (∀ (entry2 : ConfigEntryData) (reg2 : NamingRegistry) (h2 : Name),
      entry2.host = some h2 → h2 ≠ h →
      (asyncConfigEntryUpdated (asyncConfigEntryUpdated self entry reg).1
          entry2 reg2).2.1 =
        (updateEntityNames (asyncConfigEntryUpdated self entry reg).1
          reg2 h2 h).1) := by
  by_cases hne : h = self.initialDeviceIp
  · subst hne
    refine ⟨?_, ?_, fun hcon => absurd rfl hcon, fun _ => ?_, ?_⟩
    · simp [asyncConfigEntryUpdated, hce, hhost]
    · simp [asyncConfigEntryUpdated, hce, hhost]
    · simp [asyncConfigEntryUpdated, hce, hhost]
    · intro entry2 reg2 h2 hhost2 hne2
      have hfst : (asyncConfigEntryUpdated self entry reg).1 = self := by
        simp [asyncConfigEntryUpdated, hce, hhost]
      rw [hfst]
      simp [asyncConfigEntryUpdated, hce, hhost2, hne2]
  · have hfst : (asyncConfigEntryUpdated self entry reg).1 =
        { self with initialDeviceIp := h } := by
      simp [asyncConfigEntryUpdated, hce, hhost, hne]
    refine ⟨?_, ?_, fun _ => ?_, fun hcon => absurd hcon hne, ?_⟩
    · rw [hfst]
    · rw [hfst]
    · simp [asyncConfigEntryUpdated, hce, hhost, hne]
    · intro entry2 reg2 h2 hhost2 hne2
      rw [hfst]
      simp [asyncConfigEntryUpdated, hce, hhost2, hne2]

/-- Witness for `rebind_address_invariant`: entry host `"c"`, bound
address `"a"`. -/
theorem rebind_address_invariant_witness :
    (asyncConfigEntryUpdated sampleSelf
        { host := some ['c'], bleMac := none, mac := none, wifiMac := none }
        emptyReg).1.initialDeviceIp = ['c'] :=
  (rebind_address_invariant sampleSelf
    { host := some ['c'], bleMac := none, mac := none, wifiMac := none }
    emptyReg sampleCe ['c'] rfl rfl).1

end Marstek
